import Mathlib

/-!
Shallow embedding of the Access Control Engine of this repository:
the files src/code/filesystem.py and src/code/constants.py.

Modelling conventions:
  - SIDs (PySID values) are opaque distinct natural numbers.
  - Access masks and flag words are natural numbers holding the same bit
    patterns as the win32security / ntsecuritycon constants.
  - The on-disk state visible to the engine is a function from path strings
    to a DACL (ordered list of ACEs), a protection bit, and an existence bit.
  - LookupAccountSid, LookupAccountName and os.path.abspath are environment
    functions supplied by an Env record.
  - Python generators are modelled by PyIterable: a list of elements plus a
    one-shot bit; consuming a one-shot iterable empties it, so a second
    iteration over the same generator object yields nothing, exactly as in
    CPython.
-/

/-! ## Constants from win32security and ntsecuritycon -/

def DACL_SECURITY_INFORMATION : Nat := 4

def PROTECTED_DACL_SECURITY_INFORMATION : Nat := 0x80000000

def UNPROTECTED_DACL_SECURITY_INFORMATION : Nat := 0x20000000

def CONTAINER_INHERIT_ACE : Nat := 2

def OBJECT_INHERIT_ACE : Nat := 1

def NO_INHERITANCE : Nat := 0

def ACL_REVISION : Nat := 2

def FILE_GENERIC_READ : Nat := 0x120089

def FILE_GENERIC_WRITE : Nat := 0x120116

def FILE_GENERIC_EXECUTE : Nat := 0x1200A0

def DELETE_ACCESS : Nat := 0x10000

def GENERIC_READ : Nat := 0x80000000

def GENERIC_WRITE : Nat := 0x40000000

def FILE_ALL_ACCESS : Nat := 0x1F01FF

/-! ## constants.py: WellKnownSIDs and Permissions -/

/-- WellKnownSIDs.NT_AUTHORITY, the binary SID S-1-5-18, as an opaque number. -/
def NT_AUTHORITY_SID : Nat := 518

/-- WellKnownSIDs.ADMINS, the binary SID S-1-5-32-544, as an opaque number. -/
def ADMINS_SID : Nat := 532544

/-- WellKnownSIDs.EVERYONE, the binary SID S-1-1-0, as an opaque number. -/
def EVERYONE_SID : Nat := 110

/-- The Permissions enumeration of src/code/constants.py. -/
inductive Permissions where
  | READ
  | READ_WRITE
  | DELETE
  | MODIFY
  | FULL_CONTROL
  | MODIFY_PROTECTED
  | FULL_DENY
deriving DecidableEq, Repr

/-- The integer value of each Permissions member. READ through FULL_CONTROL are
access masks from ntsecuritycon; MODIFY_PROTECTED and FULL_DENY get the values
produced by auto() continuing after FULL_CONTROL, and the engine never uses
them as masks. -/
def Permissions.value : Permissions → Nat
  | .READ => FILE_GENERIC_READ
  | .READ_WRITE => FILE_GENERIC_READ ||| FILE_GENERIC_WRITE
  | .DELETE => DELETE_ACCESS
  | .MODIFY => GENERIC_READ ||| GENERIC_WRITE ||| FILE_GENERIC_EXECUTE ||| DELETE_ACCESS
  | .FULL_CONTROL => FILE_ALL_ACCESS
  | .MODIFY_PROTECTED => FILE_ALL_ACCESS + 1
  | .FULL_DENY => FILE_ALL_ACCESS + 2

/-! ## Data model -/

/-- Whether an ACE allows or denies access. -/
inductive AceKind where
  | allow
  | deny
deriving DecidableEq, Repr

/-- One access control entry: the kind, the ACE propagation flags set at
insertion time, the access mask, and the SID of the trustee. -/
structure ACE where
  kind : AceKind
  aceFlags : Nat
  mask : Nat
  sid : Nat
deriving DecidableEq, Repr

/-- The filesystem security state the engine reads and writes: for each path,
its DACL, its descriptor protection bit (SE_DACL_PROTECTED), and whether a
file or directory exists there. -/
@[ext]
structure FsState where
  existsAt : String → Bool
  dacl : String → List ACE
  protectedFlag : String → Bool

/-- Exceptions raised by filesystem.py. -/
inductive Err where
  | notAValidPath
  | notAValidPermission
deriving DecidableEq, Repr

/-- Environment functions backed by the OS: LookupAccountSid (SID to resolved
account, encoded as a number), LookupAccountName (account name to SID), and
os.path.abspath. -/
structure Env where
  lookupSid : Nat → Nat
  lookupName : String → Nat
  abspath : String → String

/-- A Python value passed where the code expects a string: either a string or
some non-string object. -/
inductive PyValue where
  | str (s : String)
  | other (tag : Nat)
deriving DecidableEq, Repr

/-- The argument passed for the permissions parameter of give_permission:
a member of Permissions, the value None, or some other non-member object. -/
inductive PermArg where
  | perm (p : Permissions)
  | noneVal
  | other (tag : Nat)
deriving DecidableEq, Repr

/-- A Python iterable: the elements still to be produced and whether it is a
one-shot generator. Consuming a one-shot iterable exhausts it. -/
structure PyIterable where
  elems : List String
  oneShot : Bool

/-- Iterate over the iterable: returns the elements produced, and the iterable
object as it stands after the loop (empty if it was a generator). -/
def PyIterable.consume (it : PyIterable) : List String × PyIterable :=
  (it.elems, PyIterable.mk (if it.oneShot then [] else it.elems) it.oneShot)

/-! ## The directory tree seen by os.walk -/

/-- A node of the on-disk tree under a directory: a subdirectory with its
children, or a file. -/
inductive Entry where
  | dir (name : String) (children : List Entry)
  | file (name : String)

/-- The name of an entry. -/
def Entry.entryName : Entry → String
  | .dir n _ => n
  | .file n => n

/-- os.path.join for the path formats this code base uses. -/
def joinPath (p name : String) : String := p ++ "/" ++ name

/-- The subdirectory names of a listing, as os.walk reports them. -/
def dirNamesOf (cs : List Entry) : List String :=
  cs.filterMap (fun c => match c with
    | Entry.dir n _ => some n
    | Entry.file _ => none)

/-- The file names of a listing, as os.walk reports them. -/
def fileNamesOf (cs : List Entry) : List String :=
  cs.filterMap (fun c => match c with
    | Entry.dir _ _ => none
    | Entry.file n => some n)

mutual

/-- os.walk rooted at path p over the given entry: the top-down sequence of
(dirpath, dirnames, filenames) triples. Walking a file yields nothing. -/
def osWalk (p : String) : Entry → List (String × List String × List String)
  | Entry.file _ => []
  | Entry.dir _ cs => (p, dirNamesOf cs, fileNamesOf cs) :: osWalkList p cs

/-- os.walk recursion into the children of the directory at path p. -/
def osWalkList (p : String) : List Entry → List (String × List String × List String)
  | [] => []
  | c :: rest => osWalk (joinPath p c.entryName) c ++ osWalkList p rest

end

/-- Directory.list_subdirectories_recurs: for every triple produced by os.walk
on the directory path, yield the joined subdirectory paths and then the joined
file paths. The paths produced by osWalk are already absolute, so the
os.path.abspath wrapper in the source is the identity here. Note the root path
itself is never yielded. -/
def list_subdirectories_recurs (rootPath : String) (tree : Entry) : List String :=
  (osWalk rootPath tree).flatMap
    (fun t => (t.2.1.map (joinPath t.1)) ++ (t.2.2.map (joinPath t.1)))

/-! ## Descriptor reads/writes -/

/-- The effect of a descriptor write on the protection bit, as a function of
the security information flags supplied to the write call: the PROTECTED bit
sets protection, the UNPROTECTED bit clears it, neither leaves it unchanged. -/
def applyProtection (flags : Nat) (old : Bool) : Bool :=
  if flags.testBit 31 then true
  else if flags.testBit 29 then false
  else old

/-- SetFileSecurity / SetNamedSecurityInfo on one path: replace its DACL with
the given one and update its protection bit according to the flags. -/
def FsState.writeDacl (st : FsState) (path : String) (flags : Nat) (d : List ACE) : FsState :=
  { st with
    dacl := fun q => if q = path then d else st.dacl q
    protectedFlag := fun q =>
      if q = path then applyProtection flags (st.protectedFlag q) else st.protectedFlag q }

/-! ## The Directory class -/

/-- The Directory class of filesystem.py: it owns its absolute path string. -/
structure Directory where
  path : String
deriving DecidableEq, Repr

/-- Directory._set_flags: composes the security information flags (from the
inherits intent) and the ACE propagation flags (from the propagation intent). -/
def Directory._set_flags (inherits propagation : Bool) : Nat × Nat :=
  let propagation_flags :=
    if propagation then CONTAINER_INHERIT_ACE ||| OBJECT_INHERIT_ACE
    else NO_INHERITANCE
  let security_information_flags :=
    if !inherits then
      DACL_SECURITY_INFORMATION ||| PROTECTED_DACL_SECURITY_INFORMATION
    else
      DACL_SECURITY_INFORMATION ||| UNPROTECTED_DACL_SECURITY_INFORMATION
  (security_information_flags, propagation_flags)

/-- The while loop of Directory.reset_user_permissions: walk the DACL and
DeleteAce every entry whose SID resolves (via LookupAccountSid) to the same
account as the target SID, keeping every other entry in order. -/
def stripAces (env : Env) (target : Nat) : List ACE → List ACE
  | [] => []
  | ace :: rest =>
    if env.lookupSid ace.sid = env.lookupSid target then stripAces env target rest
    else ace :: stripAces env target rest

/-- Directory.reset_user_permissions: fetch the descriptor of the path, delete
every ACE resolving to the same account as user_or_group, write back with
DACL_SECURITY_INFORMATION. -/
def Directory.reset_user_permissions (env : Env) (st : FsState)
    (path : String) (user_or_group : Nat) : FsState :=
  let dacl := stripAces env user_or_group (st.dacl path)
  st.writeDacl path DACL_SECURITY_INFORMATION dacl

/-- Directory._reset_permissions: build a fresh DACL containing exactly two
Allow/FILE_ALL_ACCESS entries for NT_AUTHORITY and ADMINS, with the ACE
propagation flags from set_flags (inherits defaulted to false, propagation
true), keep only the propagation half of the composed flags, and write the
descriptor back via SetFileSecurity with plain DACL_SECURITY_INFORMATION. -/
def Directory._reset_permissions (st : FsState) (path : String) : FsState :=
  let propagation_flags := (Directory._set_flags false true).2
  let dacl := [ACE.mk AceKind.allow propagation_flags FILE_ALL_ACCESS NT_AUTHORITY_SID,
               ACE.mk AceKind.allow propagation_flags FILE_ALL_ACCESS ADMINS_SID]
  st.writeDacl path DACL_SECURITY_INFORMATION dacl

/-- Directory.reset_permissions: reset the directory itself, or every walked
path when recursive. -/
def Directory.reset_permissions (tree : Entry) (st : FsState) (self : Directory)
    (recursive : Bool) : FsState :=
  let targets :=
    if recursive then list_subdirectories_recurs self.path tree else [self.path]
  targets.foldl (fun s t => Directory._reset_permissions s t) st

/-- Directory._grant_permission: compose flags, fetch the descriptor, append
one Allow ACE for the mask of the permission, write back with the composed
security information flags. No validation of the permission happens here. -/
def Directory._grant_permission (st : FsState) (user_or_group : Nat) (path : String)
    (permissions : Permissions) (inherits propagation : Bool) : FsState :=
  let flags := Directory._set_flags inherits propagation
  let dacl := st.dacl path ++ [ACE.mk AceKind.allow flags.2 permissions.value user_or_group]
  st.writeDacl path flags.1 dacl

/-- Directory._deny_permission: identical to grant but appends a Deny ACE. -/
def Directory._deny_permission (st : FsState) (user_or_group : Nat) (path : String)
    (permissions : Permissions) (inherits propagation : Bool) : FsState :=
  let flags := Directory._set_flags inherits propagation
  let dacl := st.dacl path ++ [ACE.mk AceKind.deny flags.2 permissions.value user_or_group]
  st.writeDacl path flags.1 dacl

/-- Directory.give_permission. The validation of the permissions argument runs
first; then targets is either the single-element list of the own path or the
one-shot generator of the tree walker; the strip loop iterates it, and the
dispatch loops iterate the same iterable object again. -/
def Directory.give_permission (env : Env) (tree : Entry) (st : FsState)
    (self : Directory) (user_or_group : String) (permissions : PermArg)
    (recursive : Bool) : FsState × Option Err :=
  match permissions with
  | PermArg.noneVal => (st, some Err.notAValidPermission)
  | PermArg.other _ => (st, some Err.notAValidPermission)
  | PermArg.perm p =>
    if p = Permissions.DELETE then (st, some Err.notAValidPermission)
    else
      let targets : PyIterable :=
        if recursive then PyIterable.mk (list_subdirectories_recurs self.path tree) true
        else PyIterable.mk [self.path] false
      let user_or_group_sid := env.lookupName user_or_group
      let consumed1 := targets.consume
      let st1 := consumed1.1.foldl
        (fun s t => Directory.reset_user_permissions env s t user_or_group_sid) st
      match p with
      | Permissions.MODIFY_PROTECTED =>
        let consumed2 := consumed1.2.consume
        let st2 := consumed2.1.foldl
          (fun s t =>
            Directory._grant_permission s user_or_group_sid t Permissions.MODIFY true true) st1
        (Directory._deny_permission st2 user_or_group_sid self.path
          Permissions.DELETE true false, none)
      | Permissions.FULL_DENY =>
        let consumed2 := consumed1.2.consume
        (consumed2.1.foldl
          (fun s t =>
            Directory._deny_permission s user_or_group_sid t Permissions.FULL_CONTROL true true)
          st1, none)
      | q =>
        let consumed2 := consumed1.2.consume
        (consumed2.1.foldl
          (fun s t => Directory._grant_permission s user_or_group_sid t q true true) st1, none)

/-- Directory.create_dir: os.mkdir at the path. -/
def Directory.create_dir (st : FsState) (path : String) : FsState :=
  { st with existsAt := fun q => if q = path then true else st.existsAt q }

/-- Directory.__init__: make the path absolute, create the directory when it
does not exist yet, and reset its permissions when reset_perms is true. -/
def Directory.init (env : Env) (tree : Entry) (st : FsState)
    (path_to_dir : String) (reset_perms : Bool) : Directory × FsState :=
  let p := env.abspath path_to_dir
  let st1 := if st.existsAt p then st else Directory.create_dir st p
  let st2 :=
    if reset_perms then Directory.reset_permissions tree st1 (Directory.mk p) false
    else st1
  (Directory.mk p, st2)

/-- The path setter of Directory: accepts a string and stores it; any other
value raises NotAValidPath and leaves the stored path unchanged. -/
def Directory.path_set (self : Directory) (v : PyValue) : Directory × Option Err :=
  match v with
  | PyValue.str s => (Directory.mk s, none)
  | PyValue.other _ => (self, some Err.notAValidPath)

/-! ## Spec-side vocabulary for the claims -/

/-- The access entries of a DACL belonging (by structural SID identity) to the
given principal. -/
def entriesFor (sid : Nat) (l : List ACE) : List ACE :=
  l.filter (fun a => a.sid == sid)

/-- The single entry a plain (non ModifyProtected) give_permission level
should produce, per the spec: an Allow entry with the level mask, or for
FullDeny a Deny entry with the FullControl mask, propagating in both cases. -/
def expectedAce (p : Permissions) (sid : Nat) : ACE :=
  match p with
  | Permissions.FULL_DENY =>
    ACE.mk AceKind.deny (CONTAINER_INHERIT_ACE ||| OBJECT_INHERIT_ACE) FILE_ALL_ACCESS sid
  | q =>
    ACE.mk AceKind.allow (CONTAINER_INHERIT_ACE ||| OBJECT_INHERIT_ACE) q.value sid

/-- The two-entry administrative baseline DACL reset_permissions installs. -/
def baselineDacl : List ACE :=
  [ACE.mk AceKind.allow (CONTAINER_INHERIT_ACE ||| OBJECT_INHERIT_ACE)
      FILE_ALL_ACCESS NT_AUTHORITY_SID,
   ACE.mk AceKind.allow (CONTAINER_INHERIT_ACE ||| OBJECT_INHERIT_ACE)
      FILE_ALL_ACCESS ADMINS_SID]

/-! ## Concrete fixtures for evaluations -/

/-- The directory tree of the C1 scenario: a root holding a/1.txt, a/2.txt
and a/b/3.txt. -/
def scenarioTree : Entry :=
  Entry.dir "r" [Entry.dir "a"
    [Entry.file "1.txt", Entry.file "2.txt", Entry.dir "b" [Entry.file "3.txt"]]]

/-- A state where every path exists and every descriptor is empty and
unprotected. -/
def emptyState : FsState :=
  FsState.mk (fun _ => true) (fun _ => []) (fun _ => false)

/-- A concrete environment: SID resolution is the identity and every account
name resolves to SID 7. -/
def idEnv : Env :=
  Env.mk (fun n => n) (fun _ => 7) (fun s => s)

example : list_subdirectories_recurs "/r" scenarioTree =
    ["/r/a", "/r/a/b", "/r/a/1.txt", "/r/a/2.txt", "/r/a/b/3.txt"] := by decide

example :
    (Directory.give_permission idEnv scenarioTree emptyState (Directory.mk "/r")
      "students" (PermArg.perm Permissions.READ) true).2 = none := by decide

example :
    ((Directory.give_permission idEnv scenarioTree emptyState (Directory.mk "/r")
      "students" (PermArg.perm Permissions.READ) true).1.dacl "/r/a/1.txt") = [] := by decide

example :
    ((Directory.give_permission idEnv scenarioTree emptyState (Directory.mk "/r")
      "students" (PermArg.perm Permissions.READ) false).1.dacl "/r") =
    [ACE.mk AceKind.allow 3 FILE_GENERIC_READ 7] := by decide

/-! ## Helper lemmas -/

/-- Reading back the DACL of the path just written. -/
@[simp]
theorem writeDacl_dacl_self (st : FsState) (p : String) (f : Nat) (d : List ACE) :
    (st.writeDacl p f d).dacl p = d := by
  simp [FsState.writeDacl]

/-- Reading back the protection bit of the path just written. -/
@[simp]
theorem writeDacl_protectedFlag_self (st : FsState) (p : String) (f : Nat) (d : List ACE) :
    (st.writeDacl p f d).protectedFlag p = applyProtection f (st.protectedFlag p) := by
  simp [FsState.writeDacl]

/-- Descriptor writes never touch existence. -/
@[simp]
theorem writeDacl_existsAt (st : FsState) (p : String) (f : Nat) (d : List ACE) :
    (st.writeDacl p f d).existsAt = st.existsAt := rfl

/-- A write with plain DACL_SECURITY_INFORMATION flags leaves the protection
bit as it was. -/
@[simp]
theorem applyProtection_dacl_info (b : Bool) :
    applyProtection DACL_SECURITY_INFORMATION b = b := by
  cases b <;> decide

/-- A write whose flags carry the UNPROTECTED bit clears the protection bit. -/
@[simp]
theorem applyProtection_unprotected_info (b : Bool) :
    applyProtection
      (DACL_SECURITY_INFORMATION ||| UNPROTECTED_DACL_SECURITY_INFORMATION) b = false := by
  cases b <;> decide

theorem entriesFor_append (sid : Nat) (l1 l2 : List ACE) :
    entriesFor sid (l1 ++ l2) = entriesFor sid l1 ++ entriesFor sid l2 := by
  simp [entriesFor]

@[simp]
theorem entriesFor_nil (sid : Nat) : entriesFor sid [] = [] := rfl

@[simp]
theorem entriesFor_single_self (sid : Nat) (k : AceKind) (f m : Nat) :
    entriesFor sid [ACE.mk k f m sid] = [ACE.mk k f m sid] := by
  simp [entriesFor]

/-- The strip loop removes in particular every entry whose SID is literally the
target SID, so no entry for the principal survives it. -/
@[simp]
theorem entriesFor_stripAces (env : Env) (sid : Nat) (l : List ACE) :
    entriesFor sid (stripAces env sid l) = [] := by
  induction l with
  | nil => rfl
  | cons a rest ih =>
    by_cases h : env.lookupSid a.sid = env.lookupSid sid
    · simp [stripAces, h, ih]
    · have hs : (a.sid == sid) = false := by
        by_cases hq : a.sid = sid
        · exact absurd (by rw [hq]) h
        · simp [hq]
      simpa [stripAces, h, entriesFor, hs] using ih

/-- Stripping twice is the same as stripping once. -/
theorem stripAces_idem (env : Env) (sid : Nat) (l : List ACE) :
    stripAces env sid (stripAces env sid l) = stripAces env sid l := by
  induction l with
  | nil => rfl
  | cons a rest ih =>
    by_cases h : env.lookupSid a.sid = env.lookupSid sid
    · simp [stripAces, h, ih]
    · simp [stripAces, h, ih]

/-- When no entry of the list resolves to the target account, the strip loop
returns the list unchanged. -/
theorem stripAces_of_no_match (env : Env) (sid : Nat) (l : List ACE)
    (h : ∀ a ∈ l, env.lookupSid a.sid ≠ env.lookupSid sid) :
    stripAces env sid l = l := by
  induction l with
  | nil => rfl
  | cons a rest ih =>
    have ha := h a (by simp)
    have hr : ∀ a ∈ rest, env.lookupSid a.sid ≠ env.lookupSid sid :=
      fun x hx => h x (by simp [hx])
    simp [stripAces, ha, ih hr]

/-- With an injective account resolution, the strip loop removes exactly the
entries whose SID equals the target SID structurally. -/
theorem stripAces_eq_filter (env : Env) (sid : Nat) (l : List ACE)
    (hinj : Function.Injective env.lookupSid) :
    stripAces env sid l = l.filter (fun a => !(a.sid == sid)) := by
  induction l with
  | nil => rfl
  | cons a rest ih =>
    by_cases h : env.lookupSid a.sid = env.lookupSid sid
    · have : a.sid = sid := hinj h
      simp [stripAces, h, ih, List.filter, this]
    · have hq : ¬ a.sid = sid := fun hc => h (by rw [hc])
      have hb : (!(a.sid == sid)) = true := by simp [hq]
      simp [stripAces, h, ih, List.filter_cons, hb]

/-- Reading back the stripped DACL. -/
theorem reset_user_permissions_dacl_self (env : Env) (st : FsState)
    (path : String) (sid : Nat) :
    (Directory.reset_user_permissions env st path sid).dacl path =
      stripAces env sid (st.dacl path) := by
  simp [Directory.reset_user_permissions]

/-- A non-recursive give_permission call with a valid level other than
MODIFY_PROTECTED succeeds and leaves, for the principal, exactly the one
expected entry on the target, whatever the prior state. -/
theorem give_permission_single_entry (env : Env) (tree : Entry) (st : FsState)
    (self : Directory) (name : String) (p : Permissions)
    (h1 : p ≠ Permissions.DELETE) (h2 : p ≠ Permissions.MODIFY_PROTECTED) :
    (Directory.give_permission env tree st self name (PermArg.perm p) false).2 = none ∧
    entriesFor (env.lookupName name)
      ((Directory.give_permission env tree st self name
          (PermArg.perm p) false).1.dacl self.path) =
      [expectedAce p (env.lookupName name)] := by
  cases p with
  | DELETE => exact absurd rfl h1
  | MODIFY_PROTECTED => exact absurd rfl h2
  | READ =>
    constructor <;>
      simp [Directory.give_permission, PyIterable.consume, reset_user_permissions_dacl_self,
        Directory._grant_permission, Directory._deny_permission, Directory._set_flags,
        entriesFor_append, expectedAce]
  | READ_WRITE =>
    constructor <;>
      simp [Directory.give_permission, PyIterable.consume, reset_user_permissions_dacl_self,
        Directory._grant_permission, Directory._deny_permission, Directory._set_flags,
        entriesFor_append, expectedAce]
  | MODIFY =>
    constructor <;>
      simp [Directory.give_permission, PyIterable.consume, reset_user_permissions_dacl_self,
        Directory._grant_permission, Directory._deny_permission, Directory._set_flags,
        entriesFor_append, expectedAce]
  | FULL_CONTROL =>
    constructor <;>
      simp [Directory.give_permission, PyIterable.consume, reset_user_permissions_dacl_self,
        Directory._grant_permission, Directory._deny_permission, Directory._set_flags,
        entriesFor_append, expectedAce]
  | FULL_DENY =>
    constructor <;>
      simp [Directory.give_permission, PyIterable.consume, reset_user_permissions_dacl_self,
        Directory._grant_permission, Directory._deny_permission, Directory._set_flags,
        entriesFor_append, expectedAce, Permissions.value]

/-! ## Claim theorems -/

/-- C1: evaluation of the recursive Read scenario. On a directory with
children a/1.txt, a/2.txt and a/b/3.txt, give_permission with Read and
recursive set walks five paths (the intermediate directories, not the root),
strips them, and then iterates the exhausted generator again, so the call
succeeds yet no path at all ends with an Allow/Read entry for the principal:
the claimed four paths each hold zero entries for the principal afterwards. -/
theorem give_permission_recursive_read_bug :
    list_subdirectories_recurs "/r" scenarioTree =
      ["/r/a", "/r/a/b", "/r/a/1.txt", "/r/a/2.txt", "/r/a/b/3.txt"] ∧
    (Directory.give_permission idEnv scenarioTree emptyState (Directory.mk "/r")
        "students" (PermArg.perm Permissions.READ) true).2 = none ∧
    entriesFor 7 ((Directory.give_permission idEnv scenarioTree emptyState
        (Directory.mk "/r") "students" (PermArg.perm Permissions.READ) true).1.dacl "/r") = [] ∧
    entriesFor 7 ((Directory.give_permission idEnv scenarioTree emptyState
        (Directory.mk "/r") "students" (PermArg.perm Permissions.READ) true).1.dacl
          "/r/a/1.txt") = [] ∧
    entriesFor 7 ((Directory.give_permission idEnv scenarioTree emptyState
        (Directory.mk "/r") "students" (PermArg.perm Permissions.READ) true).1.dacl
          "/r/a/2.txt") = [] ∧
    entriesFor 7 ((Directory.give_permission idEnv scenarioTree emptyState
        (Directory.mk "/r") "students" (PermArg.perm Permissions.READ) true).1.dacl
          "/r/a/b/3.txt") = [] := by
  decide

/-- C2 counterexample: applying Read and then ModifyProtected to the same
target leaves two entries for the principal, not one. -/
theorem give_permission_two_levels_counterexample :
    entriesFor 7 ((Directory.give_permission idEnv scenarioTree
        (Directory.give_permission idEnv scenarioTree emptyState (Directory.mk "/t") "u"
          (PermArg.perm Permissions.READ) false).1
        (Directory.mk "/t") "u" (PermArg.perm Permissions.MODIFY_PROTECTED) false).1.dacl "/t") =
      [ACE.mk AceKind.allow 3 Permissions.MODIFY.value 7,
       ACE.mk AceKind.deny 0 DELETE_ACCESS 7] ∧
    (entriesFor 7 ((Directory.give_permission idEnv scenarioTree
        (Directory.give_permission idEnv scenarioTree emptyState (Directory.mk "/t") "u"
          (PermArg.perm Permissions.READ) false).1
        (Directory.mk "/t") "u" (PermArg.perm Permissions.MODIFY_PROTECTED) false).1.dacl
          "/t")).length ≠ 1 := by
  decide

/-- C2 (amended): for every target path, principal and valid levels L1 then
L2, with neither Delete and L2 not ModifyProtected, the second non-recursive
ApplyPermission leaves exactly one access entry for the principal on the
target, reflecting only L2, because the strip step removes every prior entry
of the principal before the grant or deny. -/
theorem give_permission_last_writer_single_entry (env : Env) (tree : Entry)
    (st : FsState) (self : Directory) (name : String) (L1 L2 : Permissions)
    (_h1 : L1 ≠ Permissions.DELETE) (h2 : L2 ≠ Permissions.DELETE)
    (h3 : L2 ≠ Permissions.MODIFY_PROTECTED) :
    (Directory.give_permission env tree
      (Directory.give_permission env tree st self name (PermArg.perm L1) false).1
      self name (PermArg.perm L2) false).2 = none ∧
    entriesFor (env.lookupName name)
      ((Directory.give_permission env tree
        (Directory.give_permission env tree st self name (PermArg.perm L1) false).1
        self name (PermArg.perm L2) false).1.dacl self.path) =
      [expectedAce L2 (env.lookupName name)] :=
  give_permission_single_entry env tree _ self name L2 h2 h3

/-- C2 witness: the amended theorem applied with L1 Read, L2 ReadWrite. -/
theorem give_permission_last_writer_single_entry_witness :
    (Permissions.READ ≠ Permissions.DELETE ∧
     Permissions.READ_WRITE ≠ Permissions.DELETE ∧
     Permissions.READ_WRITE ≠ Permissions.MODIFY_PROTECTED) ∧
    ((Directory.give_permission idEnv scenarioTree
        (Directory.give_permission idEnv scenarioTree emptyState (Directory.mk "/t") "u"
          (PermArg.perm Permissions.READ) false).1
        (Directory.mk "/t") "u" (PermArg.perm Permissions.READ_WRITE) false).2 = none ∧
      entriesFor (idEnv.lookupName "u")
        ((Directory.give_permission idEnv scenarioTree
          (Directory.give_permission idEnv scenarioTree emptyState (Directory.mk "/t") "u"
            (PermArg.perm Permissions.READ) false).1
          (Directory.mk "/t") "u" (PermArg.perm Permissions.READ_WRITE) false).1.dacl
            (Directory.mk "/t").path) =
        [expectedAce Permissions.READ_WRITE (idEnv.lookupName "u")]) :=
  ⟨⟨by decide, by decide, by decide⟩,
   give_permission_last_writer_single_entry idEnv scenarioTree emptyState
     (Directory.mk "/t") "u" Permissions.READ Permissions.READ_WRITE
     (by decide) (by decide) (by decide)⟩

/-- C3: a non-recursive ModifyProtected call succeeds and leaves for the
principal exactly one Allow entry carrying the Modify mask with propagating
ACE flags, followed by one Deny entry carrying the Delete mask with no
inheritance flags, and the descriptor is left unprotected (inherits true). -/
theorem give_permission_modify_protected_entries (env : Env) (tree : Entry)
    (st : FsState) (self : Directory) (name : String) :
    (Directory.give_permission env tree st self name
        (PermArg.perm Permissions.MODIFY_PROTECTED) false).2 = none ∧
    entriesFor (env.lookupName name)
      ((Directory.give_permission env tree st self name
          (PermArg.perm Permissions.MODIFY_PROTECTED) false).1.dacl self.path) =
      [ACE.mk AceKind.allow (CONTAINER_INHERIT_ACE ||| OBJECT_INHERIT_ACE)
          Permissions.MODIFY.value (env.lookupName name),
       ACE.mk AceKind.deny NO_INHERITANCE Permissions.DELETE.value (env.lookupName name)] ∧
    (Directory.give_permission env tree st self name
        (PermArg.perm Permissions.MODIFY_PROTECTED) false).1.protectedFlag self.path = false := by
  refine ⟨?_, ?_, ?_⟩ <;>
    simp [Directory.give_permission, PyIterable.consume, reset_user_permissions_dacl_self,
      Directory._grant_permission, Directory._deny_permission, Directory._set_flags,
      Directory.reset_user_permissions, entriesFor_append]
  simp [entriesFor]

/-- C4 counterexample: calling the grant operation directly with the Delete
level does not fail and mutates the descriptor, appending an Allow/Delete
entry, because no level validation happens inside it. -/
theorem grant_permission_delete_counterexample :
    (Directory._grant_permission emptyState 7 "/t" Permissions.DELETE true true).dacl "/t" =
      [ACE.mk AceKind.allow 3 DELETE_ACCESS 7] ∧
    emptyState.dacl "/t" = [] := by
  decide

/-- C4 (amended): give_permission rejects Delete, an absent level and any
non-member value with NotAValidPermission before touching any descriptor,
returning the state unchanged; the private grant operation, however, performs
no validation, and granting Delete through it appends an Allow/Delete entry to
the descriptor of the path. -/
theorem invalid_permission_rejection (env : Env) (tree : Entry) (st : FsState)
    (self : Directory) (name : String) (r : Bool) :
    (Directory.give_permission env tree st self name (PermArg.perm Permissions.DELETE) r =
      (st, some Err.notAValidPermission)) ∧
    (Directory.give_permission env tree st self name PermArg.noneVal r =
      (st, some Err.notAValidPermission)) ∧
    (∀ t : Nat, Directory.give_permission env tree st self name (PermArg.other t) r =
      (st, some Err.notAValidPermission)) ∧
    (∀ (sid : Nat) (path : String),
      (Directory._grant_permission st sid path Permissions.DELETE true true).dacl path =
        st.dacl path ++
          [ACE.mk AceKind.allow (CONTAINER_INHERIT_ACE ||| OBJECT_INHERIT_ACE)
              DELETE_ACCESS sid]) := by
  refine ⟨by simp [Directory.give_permission], rfl, fun t => rfl, fun sid path => ?_⟩
  simp [Directory._grant_permission, Directory._set_flags, Permissions.value]

/-- A prior state for the reset scenario: one Read entry for Everyone on the
target and an unprotected descriptor. -/
def priorState : FsState :=
  FsState.mk (fun _ => true)
    (fun q => if q = "/t" then [ACE.mk AceKind.allow 0 FILE_GENERIC_READ EVERYONE_SID] else [])
    (fun _ => false)

/-- C5 counterexample: the full reset installs the two-entry baseline but
writes it back with plain DACL_SECURITY_INFORMATION (the protection half of
the composed flags is discarded), so a previously unprotected descriptor stays
unprotected, where the claim requires it to be protected against parent
inheritance. -/
theorem reset_permissions_not_protected_counterexample :
    (Directory._reset_permissions priorState "/t").dacl "/t" = baselineDacl ∧
    (Directory._reset_permissions priorState "/t").protectedFlag "/t" = false := by
  decide

/-- C5 (amended): the full reset discards every existing entry and installs
exactly the two Allow/FullControl baseline entries for the system authority
and the administrators group, with the propagating ACE flags composed from
inherits false and propagation true; but the write carries plain DACL update
flags, so the protection bit of the descriptor is left unchanged rather than
set. -/
theorem reset_permissions_baseline (st : FsState) (path : String) :
    (Directory._reset_permissions st path).dacl path = baselineDacl ∧
    (Directory._reset_permissions st path).protectedFlag path = st.protectedFlag path := by
  constructor
  · simp [Directory._reset_permissions, Directory._set_flags, baselineDacl]
  · simp [Directory._reset_permissions]

/-- C6: the flag composer is a pure function whose four input combinations
produce fixed, pairwise distinct pairs; propagation true sets both the
container-inherit and object-inherit ACE flags and propagation false sets no
inheritance flags, while inherits false marks the update flags protected and
inherits true marks them unprotected. -/
theorem set_flags_table :
    Directory._set_flags true true =
      (DACL_SECURITY_INFORMATION ||| UNPROTECTED_DACL_SECURITY_INFORMATION,
       CONTAINER_INHERIT_ACE ||| OBJECT_INHERIT_ACE) ∧
    Directory._set_flags true false =
      (DACL_SECURITY_INFORMATION ||| UNPROTECTED_DACL_SECURITY_INFORMATION, NO_INHERITANCE) ∧
    Directory._set_flags false true =
      (DACL_SECURITY_INFORMATION ||| PROTECTED_DACL_SECURITY_INFORMATION,
       CONTAINER_INHERIT_ACE ||| OBJECT_INHERIT_ACE) ∧
    Directory._set_flags false false =
      (DACL_SECURITY_INFORMATION ||| PROTECTED_DACL_SECURITY_INFORMATION, NO_INHERITANCE) ∧
    (Directory._set_flags true true ≠ Directory._set_flags true false ∧
     Directory._set_flags true true ≠ Directory._set_flags false true ∧
     Directory._set_flags true true ≠ Directory._set_flags false false ∧
     Directory._set_flags true false ≠ Directory._set_flags false true ∧
     Directory._set_flags true false ≠ Directory._set_flags false false ∧
     Directory._set_flags false true ≠ Directory._set_flags false false) ∧
    (∀ i : Bool, Nat.testBit (Directory._set_flags i true).2 0 = true ∧
      Nat.testBit (Directory._set_flags i true).2 1 = true) ∧
    (∀ i : Bool, (Directory._set_flags i false).2 = NO_INHERITANCE) ∧
    (∀ pr : Bool, Nat.testBit (Directory._set_flags false pr).1 31 = true ∧
      Nat.testBit (Directory._set_flags false pr).1 29 = false) ∧
    (∀ pr : Bool, Nat.testBit (Directory._set_flags true pr).1 31 = false ∧
      Nat.testBit (Directory._set_flags true pr).1 29 = true) := by
  decide

/-- A state holding entries for two different principals on one path. -/
def mixedState : FsState :=
  FsState.mk (fun _ => true)
    (fun q => if q = "/t" then
        [ACE.mk AceKind.allow 3 FILE_GENERIC_READ 7,
         ACE.mk AceKind.allow 3 FILE_ALL_ACCESS 8,
         ACE.mk AceKind.deny 0 DELETE_ACCESS 7] else [])
    (fun _ => false)

/-- C7: when account resolution is injective (distinct SIDs resolve to
distinct accounts, as on Windows), the strip removes exactly the entries whose
SID equals the principal structurally, and every entry of another principal
survives in order. Resolution happens at call time, so a renamed account still
matches through its unchanged SID. -/
theorem reset_user_permissions_structural_identity (env : Env) (st : FsState)
    (path : String) (sid : Nat) (hinj : Function.Injective env.lookupSid) :
    (Directory.reset_user_permissions env st path sid).dacl path =
      (st.dacl path).filter (fun a => !(a.sid == sid)) := by
  rw [reset_user_permissions_dacl_self]
  exact stripAces_eq_filter env sid _ hinj

/-- C7 witness: the identity resolution is injective, and stripping SID 7 from
a mixed descriptor keeps exactly the entry of SID 8. -/
theorem reset_user_permissions_structural_identity_witness :
    Function.Injective idEnv.lookupSid ∧
    (Directory.reset_user_permissions idEnv mixedState "/t" 7).dacl "/t" =
      (mixedState.dacl "/t").filter (fun a => !(a.sid == 7)) :=
  ⟨by intro a b h; exact h,
   reset_user_permissions_structural_identity idEnv mixedState "/t" 7
     (by intro a b h; exact h)⟩

/-- C8: the strip is idempotent: a second strip of the same principal on the
same path leaves the state unchanged; and stripping a principal that has no
entry on the path returns the state untouched, with no error. -/
theorem reset_user_permissions_idempotent :
    (∀ (env : Env) (st : FsState) (path : String) (sid : Nat),
      Directory.reset_user_permissions env
        (Directory.reset_user_permissions env st path sid) path sid =
      Directory.reset_user_permissions env st path sid) ∧
    (∀ (env : Env) (st : FsState) (path : String) (sid : Nat),
      (∀ a ∈ st.dacl path, env.lookupSid a.sid ≠ env.lookupSid sid) →
      Directory.reset_user_permissions env st path sid = st) := by
  constructor
  · intro env st path sid
    refine FsState.ext rfl ?_ ?_
    · funext q
      by_cases hq : q = path
      · subst hq
        simp [Directory.reset_user_permissions, FsState.writeDacl, stripAces_idem]
      · simp [Directory.reset_user_permissions, FsState.writeDacl, hq]
    · funext q
      by_cases hq : q = path
      · subst hq
        simp [Directory.reset_user_permissions, FsState.writeDacl]
      · simp [Directory.reset_user_permissions, FsState.writeDacl, hq]
  · intro env st path sid h
    refine FsState.ext rfl ?_ ?_
    · funext q
      by_cases hq : q = path
      · subst hq
        simp [Directory.reset_user_permissions, FsState.writeDacl,
          stripAces_of_no_match env sid _ h]
      · simp [Directory.reset_user_permissions, FsState.writeDacl, hq]
    · funext q
      by_cases hq : q = path
      · subst hq
        simp [Directory.reset_user_permissions, FsState.writeDacl]
      · simp [Directory.reset_user_permissions, FsState.writeDacl, hq]

/-- C8 witness: stripping SID 7 from a path with no entry at all is the
identity on the state. -/
theorem reset_user_permissions_idempotent_witness :
    (∀ a ∈ emptyState.dacl "/t", idEnv.lookupSid a.sid ≠ idEnv.lookupSid 7) ∧
    Directory.reset_user_permissions idEnv emptyState "/t" 7 = emptyState :=
  ⟨by simp [emptyState],
   reset_user_permissions_idempotent.2 idEnv emptyState "/t" 7 (by simp [emptyState])⟩

/-- C9: constructing a Directory mutates the filesystem: the stored path is
the absolute path, the directory exists afterwards in every case, the default
reset installs the two-entry administrative baseline on it, and constructing
with reset_perms false leaves every descriptor untouched. -/
theorem directory_init_mutates (env : Env) (tree : Entry) (st : FsState) (p : String) :
    ((Directory.init env tree st p true).1.path = env.abspath p) ∧
    (∀ rp : Bool, (Directory.init env tree st p rp).2.existsAt (env.abspath p) = true) ∧
    ((Directory.init env tree st p true).2.dacl (env.abspath p) = baselineDacl) ∧
    ((Directory.init env tree st p false).2.dacl = st.dacl) ∧
    ((Directory.init env tree st p false).2.protectedFlag = st.protectedFlag) := by
  refine ⟨rfl, ?_, ?_, ?_, ?_⟩
  · intro rp
    by_cases h : st.existsAt (env.abspath p) = true
    · simp [Directory.init, Directory.reset_permissions, Directory._reset_permissions,
        FsState.writeDacl, Directory.create_dir, h]
      cases rp <;> simp [h]
    · simp [Directory.init, Directory.reset_permissions, Directory._reset_permissions,
        FsState.writeDacl, Directory.create_dir, h]
      cases rp <;> simp
  · by_cases h : st.existsAt (env.abspath p) = true
    · simp [Directory.init, Directory.reset_permissions, Directory._reset_permissions,
        Directory._set_flags, Directory.create_dir, baselineDacl, h]
    · simp [Directory.init, Directory.reset_permissions, Directory._reset_permissions,
        Directory._set_flags, Directory.create_dir, baselineDacl, h]
  · by_cases h : st.existsAt (env.abspath p) = true
    · simp [Directory.init, Directory.create_dir, h]
    · simp [Directory.init, Directory.create_dir, h]
  · by_cases h : st.existsAt (env.abspath p) = true
    · simp [Directory.init, Directory.create_dir, h]
    · simp [Directory.init, Directory.create_dir, h]

/-- C10: the path setter stores any string and raises NotAValidPath on any
non-string value, leaving the previous path unchanged; and a constructed
Directory always carries the absolute form of the requested path as a string. -/
theorem path_setter_spec :
    (∀ (d : Directory) (s : String),
      Directory.path_set d (PyValue.str s) = (Directory.mk s, none)) ∧
    (∀ (d : Directory) (v : PyValue), (∀ s, v ≠ PyValue.str s) →
      Directory.path_set d v = (d, some Err.notAValidPath)) ∧
    (∀ (env : Env) (tree : Entry) (st : FsState) (p : String) (rp : Bool),
      (Directory.init env tree st p rp).1.path = env.abspath p) := by
  refine ⟨fun d s => rfl, ?_, fun env tree st p rp => rfl⟩
  intro d v h
  cases v with
  | str s => exact absurd rfl (h s)
  | other t => rfl

/-- C10 witness: assigning the non-string value tagged 0 raises and keeps the
old path. -/
theorem path_setter_spec_witness :
    (∀ s, PyValue.other 0 ≠ PyValue.str s) ∧
    Directory.path_set (Directory.mk "/t") (PyValue.other 0) =
      (Directory.mk "/t", some Err.notAValidPath) :=
  ⟨fun s => by simp,
   path_setter_spec.2.1 (Directory.mk "/t") (PyValue.other 0) (fun s => by simp)⟩
